import Mathlib

/-!
Shallow embedding of the `fellerwiser` Home Assistant custom component
(`custom_components/fellerwiser/`): the Feller Wiser HTTP client
(`feller_client.py`), the websocket connection supervisor and event router
(`main.py`), and the push-update / command logic of the light, cover and
climate device handles (`light.py`, `cover.py`, `climate.py`).

Python values flowing through the component are JSON-shaped; they are
modelled by the `Json` inductive below, with numbers as rationals (the
component's arithmetic is exact on the decimal values involved).  Python
exceptions are modelled by the `PyError` inductive; a function that can
raise returns its final object state paired with `Option PyError`
(mutations performed before the raise are kept, exactly as in Python).
-/

namespace Feller

/-- JSON values as decoded by `json.loads` / `response.json()`. -/
inductive Json where
  | null : Json
  | bool : Bool → Json
  | num : ℚ → Json
  | str : String → Json
  | arr : List Json → Json
  | obj : List (String × Json) → Json

/-- First-match lookup in the key-value list of a JSON object. -/
def lookupKey : List (String × Json) → String → Option Json
  | [], _ => none
  | (k', v) :: rest, k => if k' = k then some v else lookupKey rest k

/-- Models the combination of Python's `"k" in d` check and `d["k"]`
access used throughout the component: `some v` when the value is an
object holding the key, `none` otherwise. -/
def Json.get? (j : Json) (k : String) : Option Json :=
  match j with
  | .obj kvs => lookupKey kvs k
  | _ => none

/-- Python `==` between a JSON value and a string literal
(`data["status"] == "success"`, `moving == "up"`, ...). -/
def jsonEqStr (j : Json) (t : String) : Bool :=
  match j with
  | .str s => s == t
  | _ => false

/-- Python `==` between an entity's numeric wiser id and a JSON value
(`e.wiser_entity_id == wiser_entity_id` in `main.py`; Python also equates
`True`/`False` with `1`/`0`). -/
def jsonEqNum (q : ℚ) (j : Json) : Bool :=
  match j with
  | .num q' => q == q'
  | .bool b => q == (if b then 1 else 0)
  | _ => false

/-- Python truthiness of a JSON value (`if state["on"]:` in `climate.py`). -/
def jsonTruthy : Json → Bool
  | .null => false
  | .bool b => b
  | .num q => q != 0
  | .str s => s != ""
  | .arr [] => false
  | .arr (_ :: _) => true
  | .obj [] => false
  | .obj (_ :: _) => true

/-- Python exceptions raised by the code paths modelled here. -/
inductive PyError where
  | fellerApiException (msg : String)
  | keyError (key : String)
  | typeError (msg : String)
  | nameError (name : String)
  | gaierror
  | connectionRefused
  | other (msg : String)

/-! ## feller_client.py -/

/-- Result of a Feller API request (`FellerApiResult`). -/
structure FellerApiResult where
  status_code : Nat
  data : Json

/-- HTTP method of a request sent by `FellerApiClient`. -/
inductive Method where
  | GET : Method
  | PUT : Method

/-- A request as assembled by `_send_request_async`: endpoint path suffix,
method and optional JSON body. -/
structure Request where
  endpoint : String
  method : Method
  body : Option Json

/-- What the network produces for one HTTP request: either a transport
failure (`aiohttp.ClientError`) or a response with an HTTP status and a
decoded JSON envelope. -/
inductive HttpOutcome where
  | transportError (msg : String)
  | response (status : Nat) (envelope : Json)

/-- Body of `FellerApiClient._send_request_async` applied to one network
outcome: HTTP status `>= 400` raises `FellerApiException`; otherwise the
envelope's `status` field is read (`data["status"]`, a `KeyError` when
absent); a `"success"` value yields `FellerApiResult(status_code, data["data"])`,
anything else raises `FellerApiException`; a transport error is re-raised
as `FellerApiException`. -/
def send_request_core (out : HttpOutcome) : Except PyError FellerApiResult :=
  match out with
  | .transportError e =>
      .error (.fellerApiException ("Wiser API Request failed with error " ++ e))
  | .response status envelope =>
      if 400 ≤ status then
        .error (.fellerApiException "Wiser API Request failed with status")
      else
        match envelope.get? "status" with
        | none => .error (.keyError "status")
        | some sv =>
            if jsonEqStr sv "success" then
              match envelope.get? "data" with
              | none => .error (.keyError "data")
              | some d => .ok ⟨status, d⟩
            else
              .error (.fellerApiException "Wiser API Request failed with status")

/-- Trace of a client operation: its outcome, how many HTTP requests were
issued, and the total seconds slept between attempts. -/
structure CallTrace where
  result : Except PyError FellerApiResult
  requests : Nat
  slept : Nat

/-- One un-retried request as issued by the operations that call
`_send_request_async` directly: a single attempt, no sleeping.  The
transport is a function from (attempt index, request) to the network
outcome of that attempt. -/
def send_request_trace (transport : Nat → Request → HttpOutcome) (req : Request) : CallTrace :=
  ⟨send_request_core (transport 0 req), 1, 0⟩

/-- Loop body of `_send_request_with_retry_async`: Python's
`for i in range(retry_count)` with `except FellerApiException` sleeping
`i + 1` seconds after the failed attempt `i`; any other exception
propagates immediately; when all attempts are used up a fresh
`FellerApiException` is raised. -/
def retry_go (transport : Nat → Request → HttpOutcome) (req : Request) :
    Nat → Nat → Nat → Nat → CallTrace
  | _, 0, slept, reqs =>
      ⟨.error (.fellerApiException ("Wiser API Request to " ++ req.endpoint ++ " failed after retries")),
       reqs, slept⟩
  | i, fuel + 1, slept, reqs =>
      match send_request_core (transport i req) with
      | .ok r => ⟨.ok r, reqs + 1, slept⟩
      | .error (.fellerApiException _) =>
          retry_go transport req (i + 1) fuel (slept + (i + 1)) (reqs + 1)
      | .error e => ⟨.error e, reqs + 1, slept⟩

/-- `FellerApiClient._send_request_with_retry_async(endpoint, retry_count)`. -/
def send_request_with_retry_trace (transport : Nat → Request → HttpOutcome)
    (req : Request) (retry_count : Nat) : CallTrace :=
  retry_go transport req 0 retry_count 0 0

/-- `FellerApiClient.get_all_loads_async`: one direct `GET loads`, no retry. -/
def get_all_loads_async (transport : Nat → Request → HttpOutcome) : CallTrace :=
  send_request_trace transport ⟨"loads", .GET, none⟩

/-- `FellerApiClient.get_all_hvac_groups_async`: one direct `GET hvacgroups`. -/
def get_all_hvac_groups_async (transport : Nat → Request → HttpOutcome) : CallTrace :=
  send_request_trace transport ⟨"hvacgroups", .GET, none⟩

/-- `FellerApiClient.get_load_async(load_id, retry_count=5)`: retried
`GET loads/{id}`. -/
def get_load_async (transport : Nat → Request → HttpOutcome)
    (load_id : Nat) (retry_count : Nat) : CallTrace :=
  send_request_with_retry_trace transport ⟨"loads/" ++ toString load_id, .GET, none⟩ retry_count

/-- `FellerApiClient.get_hvac_group_async(group_id, retry_count=5)`:
retried `GET hvacgroups/{id}`. -/
def get_hvac_group_async (transport : Nat → Request → HttpOutcome)
    (group_id : Nat) (retry_count : Nat) : CallTrace :=
  send_request_with_retry_trace transport ⟨"hvacgroups/" ++ toString group_id, .GET, none⟩ retry_count

/-- `FellerApiClient.set_hvac_group_temperature_async`: one direct `PUT`. -/
def set_hvac_group_temperature_async (transport : Nat → Request → HttpOutcome)
    (group_id : Nat) (target_temperature : ℚ) : CallTrace :=
  send_request_trace transport
    ⟨"hvacgroups/" ++ toString group_id ++ "/target_state", .PUT,
     some (.obj [("target_temperature", .num target_temperature)])⟩

/-- `FellerApiClient.set_hvac_group_state_async`: one direct `PUT`. -/
def set_hvac_group_state_async (transport : Nat → Request → HttpOutcome)
    (group_id : Nat) (onValue : Bool) : CallTrace :=
  send_request_trace transport
    ⟨"hvacgroups/" ++ toString group_id ++ "/target_state", .PUT,
     some (.obj [("on", .bool onValue)])⟩

/-- `FellerApiClient.send_load_ctrl_event_async`: one direct `PUT`. -/
def send_load_ctrl_event_async (transport : Nat → Request → HttpOutcome)
    (load_id : Nat) (body : Json) : CallTrace :=
  send_request_trace transport ⟨"loads/" ++ toString load_id ++ "/ctrl", .PUT, some body⟩

/-- `FellerApiClient.set_light_brightness_async`: one direct `PUT`. -/
def set_light_brightness_async (transport : Nat → Request → HttpOutcome)
    (light_id : Nat) (brightness : ℚ) : CallTrace :=
  send_request_trace transport
    ⟨"loads/" ++ toString light_id ++ "/target_state", .PUT,
     some (.obj [("bri", .num brightness)])⟩

/-- `FellerApiClient.set_cover_level_async`: one direct `PUT`. -/
def set_cover_level_async (transport : Nat → Request → HttpOutcome)
    (cover_id : Nat) (level : ℚ) : CallTrace :=
  send_request_trace transport
    ⟨"loads/" ++ toString cover_id ++ "/target_state", .PUT,
     some (.obj [("level", .num level)])⟩

/-! ## main.py: event router -/

/-- `_get_wiser_entity_id(message)`: the id under `load` when the `load`
key is present (returning `None` when that object has no `id`), else the
id under `hvacgroup`, else `None`. -/
def get_wiser_entity_id (message : Json) : Option Json :=
  match message.get? "load" with
  | some l => l.get? "id"
  | none =>
      match message.get? "hvacgroup" with
      | some h => h.get? "id"
      | none => none

/-- Index of the first registered entity whose `wiser_entity_id` equals
the extracted id, mirroring the list comprehension
`[e for e in WISER_ENTITIES if e.wiser_entity_id == wiser_entity_id]`
followed by `entity[0]`.  The registry is modelled by the list of the
entities' numeric wiser ids, in registration order. -/
def first_match_index : List ℚ → Json → Option Nat
  | [], _ => none
  | eid :: rest, idj =>
      if jsonEqNum eid idj then some 0
      else (first_match_index rest idj).map (· + 1)

/-- Routing tail of `_handle_websocket_message` (lines 59-72): extract the
wiser id, return without action when it is `None` or no registered entity
matches, otherwise select the first matching entity, whose push-update
entry point is then invoked.  The result is the index of the invoked
entity (`none` = no entity invoked, and this path raises nothing). -/
def route (registry : List ℚ) (message : Json) : Option Nat :=
  match get_wiser_entity_id message with
  | none => none
  | some idj => first_match_index registry idj

/-! ## cover.py -/

/-- Locally tracked state of a `FellerCover` (the fields written by its
update paths; `__init__` starts them at `None`/`False`). -/
structure CoverState where
  state : Option Bool
  is_opening : Bool
  is_closing : Bool
  is_opened : Bool
  is_closed : Bool
  is_partially_opened : Bool
  position : Option ℚ

/-- The `FellerCover.__init__` values of the tracked fields. -/
def initCoverState : CoverState :=
  ⟨none, false, false, false, false, false, none⟩

/-- The three `if moving == ...` statements of
`FellerCover.update_from_websocket_message` (an unrecognised value leaves
the flags untouched). -/
def coverMovingFlags (s : CoverState) (moving : Json) : CoverState :=
  let s1 := if jsonEqStr moving "stop" then { s with is_closing := false, is_opening := false } else s
  let s2 := if jsonEqStr moving "up" then { s1 with is_closing := false, is_opening := true } else s1
  if jsonEqStr moving "down" then { s2 with is_closing := true, is_opening := false } else s2

/-- The position-threshold `if / elif / else` chain of
`FellerCover.update_from_websocket_message`. -/
def coverPositionFlags (s : CoverState) (pos : ℚ) : CoverState :=
  if 100 ≤ pos then { s with is_closed := false, is_opened := true, is_partially_opened := false }
  else if pos ≤ 0 then { s with is_closed := true, is_opened := false, is_partially_opened := false }
  else { s with is_closed := false, is_opened := false, is_partially_opened := true }

/-- `FellerCover.update_from_websocket_message(message)`: no-op when the
`load` or its `state` key is missing; otherwise reads
`state["level"]` and `state["moving"]` (a `KeyError` when either is
missing), sets `position := 100 - level / 100`, applies the moving-flag
and threshold-flag chains.  Returns the final object state and the raised
exception, if any. -/
def cover_update_from_websocket_message (s : CoverState) (message : Json) :
    CoverState × Option PyError :=
  match message.get? "load" with
  | none => (s, none)
  | some m =>
      match m.get? "state" with
      | none => (s, none)
      | some st =>
          match st.get? "level" with
          | none => (s, some (.keyError "level"))
          | some lvJ =>
              match st.get? "moving" with
              | none => (s, some (.keyError "moving"))
              | some mv =>
                  match lvJ with
                  | .num lv =>
                      let pos : ℚ := 100 - lv / 100
                      let s1 := { s with position := some pos }
                      let s2 := coverMovingFlags s1 mv
                      (coverPositionFlags s2 pos, none)
                  | _ => (s, some (.typeError "unsupported operand type for division"))

/-- Result of a cover command handler: final object state, propagated
exception (if the request failed), and the vendor `level` argument passed
to `set_cover_level_async`. -/
structure CoverCmdResult where
  state : CoverState
  err : Option PyError
  sentLevel : Option ℚ

/-- Shared tail of the cover commands: after a successful request, set
`self._state = True` then `self._position = 100 - result.data["target_state"]["level"] / 100`. -/
def coverCommandTail (s : CoverState) (sent : ℚ) (respData : Json) : CoverCmdResult :=
  let s1 := { s with state := some true }
  match respData.get? "target_state" with
  | none => ⟨s1, some (.keyError "target_state"), some sent⟩
  | some ts =>
      match ts.get? "level" with
      | none => ⟨s1, some (.keyError "level"), some sent⟩
      | some (.num lv) => ⟨{ s1 with position := some (100 - lv / 100) }, none, some sent⟩
      | some _ => ⟨s1, some (.typeError "unsupported operand type for division"), some sent⟩

/-- `FellerCover.async_open_cover(**kwargs)`: first writes
`self._position = kwargs.get(ATTR_POSITION, 100)`, then awaits
`set_cover_level_async(id, 0)` (response modelled by `resp`); a request
failure propagates with the pre-written position kept. -/
def cover_async_open_cover (posArg : Option ℚ) (resp : Except PyError Json)
    (s : CoverState) : CoverCmdResult :=
  let s1 := { s with position := some (posArg.getD 100) }
  match resp with
  | .error e => ⟨s1, some e, some 0⟩
  | .ok d => coverCommandTail s1 0 d

/-- `FellerCover.async_close_cover(**kwargs)`: first writes
`self._position = kwargs.get(ATTR_POSITION, 100)` (the same default as
open), then awaits `set_cover_level_async(id, 10000)`. -/
def cover_async_close_cover (posArg : Option ℚ) (resp : Except PyError Json)
    (s : CoverState) : CoverCmdResult :=
  let s1 := { s with position := some (posArg.getD 100) }
  match resp with
  | .error e => ⟨s1, some e, some 10000⟩
  | .ok d => coverCommandTail s1 10000 d

/-- `FellerCover.async_set_cover_position(**kwargs)`: first writes
`self._position = kwargs.get(ATTR_POSITION, 100)`, then awaits
`set_cover_level_async(id, (100 - self._position) * 100)`. -/
def cover_async_set_cover_position (posArg : Option ℚ) (resp : Except PyError Json)
    (s : CoverState) : CoverCmdResult :=
  let s1 := { s with position := some (posArg.getD 100) }
  match resp with
  | .error e => ⟨s1, some e, some ((100 - posArg.getD 100) * 100)⟩
  | .ok d => coverCommandTail s1 ((100 - posArg.getD 100) * 100) d

/-! ## light.py -/

/-- Locally tracked state of a `FellerLight`. -/
structure LightState where
  is_on : Option Bool
  brightness : Option ℚ

/-- The `FellerLight.__init__` values of the tracked fields. -/
def initLightState : LightState := ⟨none, none⟩

/-- The vendor scale divisor `39.22` used by `light.py`. -/
def briFactor : ℚ := 3922 / 100

/-- Python 3 `round(q)`: round half to even. -/
def pyRound (q : ℚ) : ℤ :=
  if q - Int.floor q < 1 / 2 then Int.floor q
  else if 1 / 2 < q - Int.floor q then Int.floor q + 1
  else if Int.floor q % 2 = 0 then Int.floor q else Int.floor q + 1

/-- The brightness conversion of `FellerLight.async_turn_on`:
`round(brightness * 39.22)` capped at `10000`. -/
def convertedBrightness (b : ℚ) : ℤ :=
  if 10000 < pyRound (b * briFactor) then 10000 else pyRound (b * briFactor)

/-- The `try: if message["state"]["flags"]["fading"] == 1 ... except KeyError`
guard of `FellerLight.update_from_websocket_message` (Python also equates
`True` with `1`). -/
def isFadingOne (st : Json) : Bool :=
  match (st.get? "flags").bind (fun f => f.get? "fading") with
  | some (.num q) => q == 1
  | some (.bool b) => b
  | _ => false

/-- `FellerLight.update_from_websocket_message(message)`: no-op when
`load`, its `state`, or `state["bri"]` is missing, or when the fading flag
equals 1; `bri is None` or `bri == 0` store brightness 0 and off;
otherwise stores `bri / 39.22` and on. -/
def light_update_from_websocket_message (s : LightState) (message : Json) :
    LightState × Option PyError :=
  match message.get? "load" with
  | none => (s, none)
  | some m =>
      match m.get? "state" with
      | none => (s, none)
      | some st =>
          if isFadingOne st then (s, none)
          else
            match st.get? "bri" with
            | none => (s, none)
            | some .null => (⟨some false, some 0⟩, none)
            | some (.num q) =>
                if q == 0 then (⟨some false, some 0⟩, none)
                else (⟨some true, some (q / briFactor)⟩, none)
            | some _ => (s, some (.typeError "unsupported operand type for division"))

/-- Result of a light command handler: final object state, propagated
exception, and the vendor `bri` value passed to
`set_light_brightness_async` (when that request was issued). -/
structure LightCmdResult where
  state : LightState
  err : Option PyError
  sentBri : Option ℤ

/-- `FellerLight.async_turn_on(**kwargs)`.  `kwargs = none` models an
empty kwargs dict (the `if not kwargs` branch: ctrl "on" click, then a
`get_load_async` read of `state.bri`); `kwargs = some briArg` models a
non-empty kwargs dict where `briArg` is `kwargs.get(ATTR_BRIGHTNESS)`
(defaulting to 255): the handler first writes `self._brightness` to that
requested value, converts it, issues `set_light_brightness_async`, and on
success sets `self._is_on = True` and reads back
`result.data["target_state"]["bri"] / 39.22`. -/
def light_async_turn_on (kwargs : Option (Option ℚ))
    (ctrlResp getResp setResp : Except PyError Json) (s : LightState) : LightCmdResult :=
  match kwargs with
  | none =>
      match ctrlResp with
      | .error e => ⟨s, some e, none⟩
      | .ok _ =>
          let s1 := { s with is_on := some true }
          match getResp with
          | .error e => ⟨s1, some e, none⟩
          | .ok d =>
              match d.get? "state" with
              | none => ⟨s1, some (.keyError "state"), none⟩
              | some st =>
                  match st.get? "bri" with
                  | none => ⟨s1, some (.keyError "bri"), none⟩
                  | some (.num q) => ⟨{ s1 with brightness := some (q / briFactor) }, none, none⟩
                  | some _ => ⟨s1, some (.typeError "unsupported operand type for division"), none⟩
  | some briArg =>
      let b := briArg.getD 255
      let s1 := { s with brightness := some b }
      let sent := convertedBrightness b
      match setResp with
      | .error e => ⟨s1, some e, some sent⟩
      | .ok d =>
          let s2 := { s1 with is_on := some true }
          match d.get? "target_state" with
          | none => ⟨s2, some (.keyError "target_state"), some sent⟩
          | some ts =>
              match ts.get? "bri" with
              | none => ⟨s2, some (.keyError "bri"), some sent⟩
              | some (.num q) => ⟨{ s2 with brightness := some (q / briFactor) }, none, some sent⟩
              | some _ => ⟨s2, some (.typeError "unsupported operand type for division"), some sent⟩

/-! ## climate.py -/

/-- Host-platform HVAC mode values used by `FellerHvacGroup`. -/
inductive HVACMode where
  | off : HVACMode
  | heat : HVACMode
deriving DecidableEq

/-- Host-platform HVAC action values used by `FellerHvacGroup`. -/
inductive HVACAction where
  | heating : HVACAction
  | idle : HVACAction
deriving DecidableEq

/-- Locally tracked state of a `FellerHvacGroup` (the fields written by
`_update_from_state`; temperatures keep the raw JSON value, as Python
assigns whatever the message holds). -/
structure HvacState where
  current_temperature : Option Json
  target_temperature : Option Json
  hvac_mode : Option HVACMode
  hvac_action : Option HVACAction

/-- The `FellerHvacGroup.__init__` values of the tracked fields. -/
def initHvacState : HvacState := ⟨none, none, none, none⟩

/-- `FellerHvacGroup._update_from_state(state)`: assigns
`ambient_temperature` and `target_temperature` in order (each a `KeyError`
when missing — leaving the earlier assignment in place), maps truthiness
of `state["on"]` to heat/off, and `heating_cooling_level > 0` to
heating/idle. -/
def hvac_update_from_state (s : HvacState) (st : Json) : HvacState × Option PyError :=
  match st.get? "ambient_temperature" with
  | none => (s, some (.keyError "ambient_temperature"))
  | some amb =>
      let s1 := { s with current_temperature := some amb }
      match st.get? "target_temperature" with
      | none => (s1, some (.keyError "target_temperature"))
      | some tgt =>
          let s2 := { s1 with target_temperature := some tgt }
          match st.get? "on" with
          | none => (s2, some (.keyError "on"))
          | some onv =>
              let s3 := if jsonTruthy onv then { s2 with hvac_mode := some .heat }
                        else { s2 with hvac_mode := some .off }
              match st.get? "heating_cooling_level" with
              | none => (s3, some (.keyError "heating_cooling_level"))
              | some (.num hl) =>
                  (if 0 < hl then { s3 with hvac_action := some .heating }
                   else { s3 with hvac_action := some .idle }, none)
              | some (.bool b) =>
                  (if b then { s3 with hvac_action := some .heating }
                   else { s3 with hvac_action := some .idle }, none)
              | some _ => (s3, some (.typeError "unsupported comparison"))

/-- `FellerHvacGroup.update_from_websocket_message(message)`: no-op when
the `hvacgroup` or its `state` key is missing, otherwise runs
`_update_from_state`. -/
def hvac_update_from_websocket_message (s : HvacState) (message : Json) :
    HvacState × Option PyError :=
  match message.get? "hvacgroup" with
  | none => (s, none)
  | some m =>
      match m.get? "state" with
      | none => (s, none)
      | some st => hvac_update_from_state s st

/-! ## main.py: connection supervisor -/

/-- What `await asyncio.wait_for(ws.recv(), timeout=None)` produced:
a decoded frame, a `TimeoutError`/`ConnectionClosed` (the caught tuple),
or some other exception (which the handler does not catch). -/
inductive RecvOutcome where
  | message (m : Json)
  | timeoutOrClosed
  | otherError (e : PyError)

/-- Outcome of the explicit `ws.ping()` liveness check. -/
inductive PingOutcome where
  | pongReceived
  | pingFailed

/-- How `_handle_websocket_message` hands control back to the loop in
`establish_websocket`: a normal return (the inner `while True` re-invokes
it on the same websocket object) or a propagating exception (which
escapes the inner loop into the outer `try`). -/
inductive HandlerExit where
  | returned
  | raised (e : PyError)

/-- Observable effect of one `_handle_websocket_message` call. -/
structure HandlerResult where
  exit : HandlerExit
  slept : Nat

/-- `_handle_websocket_message(ws)`.  On a received frame, the routing
tail (lines 56-72, modelled in detail by `route`) runs; its exit is the
`process` argument.  On `TimeoutError`/`ConnectionClosed`: a failing ping
logs, sleeps 10 seconds and returns (back into the receive loop on the
same websocket); a received pong logs "keeping connection alive" and then
falls through to line 56, where the local `result` was never assigned, so
an `UnboundLocalError` (a `NameError`) is raised.  Any other receive
exception propagates. -/
def handle_websocket_message (recv : RecvOutcome) (ping : PingOutcome)
    (process : Json → HandlerExit) : HandlerResult :=
  match recv with
  | .message m => ⟨process m, 0⟩
  | .otherError e => ⟨.raised e, 0⟩
  | .timeoutOrClosed =>
      match ping with
      | .pingFailed => ⟨.returned, 10⟩
      | .pongReceived => ⟨.raised (.nameError "result"), 0⟩

/-- What the supervisor does next after one handler call. -/
structure SupervisorStep where
  reconnects : Bool
  slept : Nat

/-- Control flow of `establish_websocket` after `_handle_websocket_message`
finishes: a normal return stays inside the inner `while True` on the same
websocket (no new connection); a raised exception escapes to the outer
handlers, every one of which continues the outer `while True`, so a new
`websockets.connect` happens next (after a 10 second sleep for
`socket.gaierror` / `ConnectionRefusedError`, immediately otherwise). -/
def supervisor_after_handler (r : HandlerResult) : SupervisorStep :=
  match r.exit with
  | .returned => ⟨false, r.slept⟩
  | .raised .gaierror => ⟨true, r.slept + 10⟩
  | .raised .connectionRefused => ⟨true, r.slept + 10⟩
  | .raised _ => ⟨true, r.slept⟩

/-- One iteration of the outer `while True` of `establish_websocket` that
ended with exception `e` (raised by `websockets.connect` or escaping the
inner loop): every `except` arm continues the loop, sleeping 10 seconds
for `socket.gaierror` (DNS failure) and `ConnectionRefusedError`, and not
sleeping otherwise. -/
def establish_websocket_on_error (e : PyError) : SupervisorStep :=
  match e with
  | .gaierror => ⟨true, 10⟩
  | .connectionRefused => ⟨true, 10⟩
  | _ => ⟨true, 0⟩

/-- Whether the `establish_websocket` task is still running after `n`
outer-loop iterations, the `i`-th of which ended with exception
`errs i`. -/
def supervisor_alive (errs : Nat → PyError) : Nat → Bool
  | 0 => true
  | n + 1 => supervisor_alive errs n && (establish_websocket_on_error (errs n)).reconnects

/-! ## Concrete inputs used to instantiate the theorems below -/

/-- Transport failing on attempts 0-3 and answering a success envelope on
attempt 4. -/
def c5transport : Nat → Request → HttpOutcome :=
  fun i _ =>
    if i < 4 then .transportError "connection refused"
    else .response 200 (.obj [("status", .str "success"), ("data", .obj [])])

/-- Transport failing on every attempt. -/
def c6FailTransport : Nat → Request → HttpOutcome :=
  fun _ _ => .transportError "Cannot connect to host"

/-- Success envelope with an empty payload list. -/
def c7env : Json := .obj [("status", .str "success"), ("data", .arr [])]

/-- Registration-order wiser ids of three registered entities. -/
def c3registry : List ℚ := [5, 42, 7]

/-- Push envelope carrying `load.id = 42`. -/
def c3message : Json := .obj [("load", .obj [("id", .num 42)])]

/-- Push envelope whose `hvacgroup.state` holds only `ambient_temperature`. -/
def c4PartialMessage : Json :=
  .obj [("hvacgroup", .obj [("id", .num 1), ("state", .obj [("ambient_temperature", .num 20)])])]

/-- An hvac group state with every tracked field populated. -/
def c4InitState : HvacState :=
  ⟨some (.num 18), some (.num 21), some .off, some .idle⟩

/-- Push envelope without the `load` or `hvacgroup` key. -/
def c4NoKindMessage : Json := .obj [("unrelated", .null)]

/-- Push envelope whose `load` object has no `state` key. -/
def c4NoStateMessage : Json := .obj [("load", .obj [("id", .num 3)])]

/-- A cover push envelope with the given id, vendor level and moving
direction. -/
def coverPushMessage (i lv : ℚ) (mv : String) : Json :=
  .obj [("load", .obj [("id", .num i), ("state", .obj [("level", .num lv), ("moving", .str mv)])])]

/-- A light push envelope reporting the given vendor brightness. -/
def briPushMessage (r : ℤ) : Json :=
  .obj [("load", .obj [("id", .num 1), ("state", .obj [("bri", .num (r : ℚ))])])]

/-! ## Theorems -/

/-- C1: the spec says a failed ping after a receive timeout / closed
connection leads (after 10 seconds) to a reconnect, and a received pong
keeps the same session.  The code does neither: a failed ping sleeps 10
seconds and returns into the receive loop on the SAME websocket (no new
connection is established), while a received pong makes the handler fall
through to the unassigned local `result`, raising `UnboundLocalError`,
which the outer catch-all turns into a NEW connection.  This theorem
records the code's actual behaviour at both inputs. -/
theorem C1_supervisor_ping_behavior :
    (∀ process, handle_websocket_message .timeoutOrClosed .pingFailed process =
      ⟨.returned, 10⟩) ∧
    (∀ process, supervisor_after_handler
      (handle_websocket_message .timeoutOrClosed .pingFailed process) = ⟨false, 10⟩) ∧
    (∀ process, handle_websocket_message .timeoutOrClosed .pongReceived process =
      ⟨.raised (.nameError "result"), 0⟩) ∧
    (∀ process, supervisor_after_handler
      (handle_websocket_message .timeoutOrClosed .pongReceived process) = ⟨true, 0⟩) :=
  ⟨fun _ => rfl, fun _ => rfl, fun _ => rfl, fun _ => rfl⟩

/-- C2: the connection supervisor never terminates on its own — every
exception that ends an outer-loop iteration leads to another iteration
(a reconnect), with a 10 second sleep for DNS failures
(`socket.gaierror`) and refused connections, and the task is still alive
after any number of failing iterations. -/
theorem C2_supervisor_never_terminates :
    establish_websocket_on_error .gaierror = ⟨true, 10⟩ ∧
    establish_websocket_on_error .connectionRefused = ⟨true, 10⟩ ∧
    (∀ e, (establish_websocket_on_error e).reconnects = true) ∧
    (∀ errs n, supervisor_alive errs n = true) := by
  refine ⟨rfl, rfl, fun e => ?_, fun errs n => ?_⟩
  · cases e <;> rfl
  · induction n with
    | zero => rfl
    | succ n ih =>
        rw [supervisor_alive, ih, Bool.true_and]
        cases errs n <;> rfl

/-- C5: with retry count 5, when attempts 1-4 (indices 0-3) fail with
`FellerApiException` and attempt 5 (index 4) succeeds, the retry wrapper
returns the successful result after sleeping 1+2+3+4 = 10 seconds in
total; and when all 5 attempts fail it raises `FellerApiException`. -/
theorem C5_retry_policy (transport : Nat → Request → HttpOutcome) (req : Request) :
    (∀ res : FellerApiResult,
      (∀ j, j < 4 → ∃ m, send_request_core (transport j req) =
        .error (.fellerApiException m)) →
      send_request_core (transport 4 req) = .ok res →
      send_request_with_retry_trace transport req 5 = ⟨.ok res, 5, 10⟩) ∧
    ((∀ j, j < 5 → ∃ m, send_request_core (transport j req) =
        .error (.fellerApiException m)) →
      ∃ m, (send_request_with_retry_trace transport req 5).result =
        .error (.fellerApiException m)) := by
  constructor
  · intro res hfail hsucc
    obtain ⟨m0, h0⟩ := hfail 0 (by norm_num)
    obtain ⟨m1, h1⟩ := hfail 1 (by norm_num)
    obtain ⟨m2, h2⟩ := hfail 2 (by norm_num)
    obtain ⟨m3, h3⟩ := hfail 3 (by norm_num)
    simp [send_request_with_retry_trace, retry_go, h0, h1, h2, h3, hsucc]
  · intro hfail
    obtain ⟨m0, h0⟩ := hfail 0 (by norm_num)
    obtain ⟨m1, h1⟩ := hfail 1 (by norm_num)
    obtain ⟨m2, h2⟩ := hfail 2 (by norm_num)
    obtain ⟨m3, h3⟩ := hfail 3 (by norm_num)
    obtain ⟨m4, h4⟩ := hfail 4 (by norm_num)
    refine ⟨"Wiser API Request to " ++ req.endpoint ++ " failed after retries", ?_⟩
    simp [send_request_with_retry_trace, retry_go, h0, h1, h2, h3, h4]

/-- Witness for C5 at a concrete transport: four transport failures then
a success envelope. -/
theorem C5_retry_policy_witness :
    send_request_with_retry_trace c5transport ⟨"loads/3", .GET, none⟩ 5 =
      ⟨.ok ⟨200, .obj []⟩, 5, 10⟩ := by
  apply (C5_retry_policy c5transport ⟨"loads/3", .GET, none⟩).1
  · intro j hj
    refine ⟨"Wiser API Request failed with error connection refused", ?_⟩
    simp [c5transport, hj, send_request_core]
  · simp [c5transport, send_request_core, Json.get?, lookupKey, jsonEqStr]

/-- C6 counterexample: the claim says every GET-style read — including
list loads and list HVAC groups — performs bounded retry on failure, but
on an always-failing transport `get_all_loads_async` and
`get_all_hvac_groups_async` issue exactly one request, unlike the retried
single-item read which issues 5. -/
theorem C6_counterexample :
    (get_all_loads_async c6FailTransport).requests = 1 ∧
    (get_all_hvac_groups_async c6FailTransport).requests = 1 ∧
    (get_load_async c6FailTransport 3 5).requests = 5 ∧
    (get_all_loads_async c6FailTransport).requests ≠
      (get_load_async c6FailTransport 3 5).requests := by
  refine ⟨rfl, rfl, rfl, by decide⟩

/-- C6 amended: only the single-item reads (`get_load_async`,
`get_hvac_group_async`) perform bounded retry (5 attempts); the list
reads (`get_all_loads_async`, `get_all_hvac_groups_async`) and every
mutating operation perform exactly one request attempt, sleep nothing,
and surface the failure immediately. -/
theorem C6_retry_scope (transport : Nat → Request → HttpOutcome)
    (h : ∀ i req, ∃ m, send_request_core (transport i req) =
      .error (.fellerApiException m)) :
    (∀ lid, (get_load_async transport lid 5).requests = 5 ∧
      ∃ m, (get_load_async transport lid 5).result = .error (.fellerApiException m)) ∧
    (∀ gid, (get_hvac_group_async transport gid 5).requests = 5 ∧
      ∃ m, (get_hvac_group_async transport gid 5).result = .error (.fellerApiException m)) ∧
    ((get_all_loads_async transport).requests = 1 ∧
      (get_all_loads_async transport).slept = 0 ∧
      ∃ m, (get_all_loads_async transport).result = .error (.fellerApiException m)) ∧
    ((get_all_hvac_groups_async transport).requests = 1 ∧
      (get_all_hvac_groups_async transport).slept = 0 ∧
      ∃ m, (get_all_hvac_groups_async transport).result = .error (.fellerApiException m)) ∧
    (∀ gid t, (set_hvac_group_temperature_async transport gid t).requests = 1 ∧
      (set_hvac_group_temperature_async transport gid t).slept = 0 ∧
      ∃ m, (set_hvac_group_temperature_async transport gid t).result =
        .error (.fellerApiException m)) ∧
    (∀ gid onv, (set_hvac_group_state_async transport gid onv).requests = 1 ∧
      (set_hvac_group_state_async transport gid onv).slept = 0 ∧
      ∃ m, (set_hvac_group_state_async transport gid onv).result =
        .error (.fellerApiException m)) ∧
    (∀ lid body, (send_load_ctrl_event_async transport lid body).requests = 1 ∧
      (send_load_ctrl_event_async transport lid body).slept = 0 ∧
      ∃ m, (send_load_ctrl_event_async transport lid body).result =
        .error (.fellerApiException m)) ∧
    (∀ lid bri, (set_light_brightness_async transport lid bri).requests = 1 ∧
      (set_light_brightness_async transport lid bri).slept = 0 ∧
      ∃ m, (set_light_brightness_async transport lid bri).result =
        .error (.fellerApiException m)) ∧
    (∀ cid lv, (set_cover_level_async transport cid lv).requests = 1 ∧
      (set_cover_level_async transport cid lv).slept = 0 ∧
      ∃ m, (set_cover_level_async transport cid lv).result =
        .error (.fellerApiException m)) := by
  have retried : ∀ req : Request,
      send_request_with_retry_trace transport req 5 =
        ⟨.error (.fellerApiException ("Wiser API Request to " ++ req.endpoint ++
          " failed after retries")), 5, 15⟩ := by
    intro req
    obtain ⟨m0, h0⟩ := h 0 req
    obtain ⟨m1, h1⟩ := h 1 req
    obtain ⟨m2, h2⟩ := h 2 req
    obtain ⟨m3, h3⟩ := h 3 req
    obtain ⟨m4, h4⟩ := h 4 req
    simp [send_request_with_retry_trace, retry_go, h0, h1, h2, h3, h4]
  have single : ∀ req : Request,
      (send_request_trace transport req).requests = 1 ∧
      (send_request_trace transport req).slept = 0 ∧
      ∃ m, (send_request_trace transport req).result = .error (.fellerApiException m) := by
    intro req
    obtain ⟨m, hm⟩ := h 0 req
    exact ⟨rfl, rfl, m, hm⟩
  refine ⟨fun lid => ?_, fun gid => ?_, single _, single _,
    fun gid t => single _, fun gid onv => single _, fun lid body => single _,
    fun lid bri => single _, fun cid lv => single _⟩
  · rw [get_load_async, retried]
    exact ⟨rfl, _, rfl⟩
  · rw [get_hvac_group_async, retried]
    exact ⟨rfl, _, rfl⟩

/-- Witness for C6 at the always-failing transport. -/
theorem C6_retry_scope_witness :
    (set_light_brightness_async c6FailTransport 4 500).requests = 1 ∧
    (get_load_async c6FailTransport 4 5).requests = 5 := by
  have h : ∀ i req, ∃ m, send_request_core (c6FailTransport i req) =
      .error (.fellerApiException m) :=
    fun i req => ⟨"Wiser API Request failed with error Cannot connect to host", rfl⟩
  have hc := C6_retry_scope c6FailTransport h
  exact ⟨(hc.2.2.2.2.2.2.2.1 4 500).1, (hc.1 4).1⟩

/-- C7: a single request fails with `FellerApiException` exactly when the
HTTP status is at least 400, a transport failure occurs, or the envelope's
`status` field differs from `"success"`; otherwise it returns a
`FellerApiResult` carrying the envelope's `data` payload and the HTTP
status code.  The hypotheses fix the envelope's `status` and `data`
fields, the shape the vendor API guarantees. -/
theorem C7_request_failure_iff (status : Nat) (env sv dv : Json) (msg : String)
    (hs : env.get? "status" = some sv) (hd : env.get? "data" = some dv) :
    ((∃ m, send_request_core (.response status env) = .error (.fellerApiException m)) ↔
      (400 ≤ status ∨ jsonEqStr sv "success" = false)) ∧
    (∃ m, send_request_core (.transportError msg) = .error (.fellerApiException m)) ∧
    (¬ 400 ≤ status → jsonEqStr sv "success" = true →
      send_request_core (.response status env) = .ok ⟨status, dv⟩) ∧
    (jsonEqStr sv "success" = false ↔ sv ≠ .str "success") := by
  refine ⟨?_, ⟨_, rfl⟩, ?_, ?_⟩
  · by_cases h4 : 400 ≤ status
    · simp [send_request_core, h4]
    · cases hsv : jsonEqStr sv "success"
      · simp [send_request_core, h4, hs, hsv]
      · simp [send_request_core, h4, hs, hsv, hd]
  · intro h4 hsv
    simp [send_request_core, h4, hs, hsv, hd]
  · cases sv <;> simp [jsonEqStr]

/-- Witness for C7 at a concrete 200-status success envelope and a
concrete transport failure. -/
theorem C7_request_failure_witness :
    send_request_core (.response 200 c7env) = .ok ⟨200, .arr []⟩ ∧
    (∃ m, send_request_core (.transportError "Cannot connect") =
      .error (.fellerApiException m)) := by
  have h := C7_request_failure_iff 200 c7env (.str "success") (.arr []) "Cannot connect" rfl rfl
  exact ⟨h.2.2.1 (by norm_num) rfl, h.2.1⟩

/-- Helper for C3: with pairwise-distinct registered ids, the first-match
scan finds index `n` exactly when the entity at `n` carries the extracted
numeric id. -/
theorem first_match_index_eq_some_iff (registry : List ℚ) (q : ℚ) (hnd : registry.Nodup) :
    ∀ n, first_match_index registry (.num q) = some n ↔ registry.get? n = some q := by
  induction registry with
  | nil => intro n; simp [first_match_index]
  | cons e rest ih =>
    rw [List.nodup_cons] at hnd
    intro n
    by_cases he : e = q
    · subst he
      have ht : jsonEqNum e (.num e) = true := by simp [jsonEqNum]
      cases n with
      | zero => simp [first_match_index, ht]
      | succ m =>
          simp only [first_match_index, ht, if_true, List.get?_cons_succ]
          constructor
          · intro hc; exact absurd hc (by simp)
          · intro hc; exact absurd (List.get?_mem hc) hnd.1
    · have hb : jsonEqNum e (.num q) = false := by
        simp [jsonEqNum]
        exact he
      cases n with
      | zero => simp [first_match_index, hb, Option.map_eq_some', he]
      | succ m => simp [first_match_index, hb, Option.map_eq_some', ih hnd.2 m]

/-- C3: with pairwise-distinct registered ids, a push envelope whose
`load` (or, failing that, `hvacgroup`) object carries the numeric id `q`
is routed to index `n` exactly when the registered entity at `n` has id
`q` (so exactly that one handle is invoked, and none when `q` is not
registered); an envelope whose kind object has no `id`, or with neither
kind key, routes nowhere — no handle invoked and nothing raised. -/
theorem C3_event_router (registry : List ℚ) (message : Json) (hnd : registry.Nodup) :
    (∀ kvs (q : ℚ), message.get? "load" = some (.obj kvs) →
      Json.get? (.obj kvs) "id" = some (.num q) →
      ∀ n, route registry message = some n ↔ registry.get? n = some q) ∧
    (∀ kvs, message.get? "load" = some (.obj kvs) →
      Json.get? (.obj kvs) "id" = none → route registry message = none) ∧
    (∀ kvs (q : ℚ), message.get? "load" = none →
      message.get? "hvacgroup" = some (.obj kvs) →
      Json.get? (.obj kvs) "id" = some (.num q) →
      ∀ n, route registry message = some n ↔ registry.get? n = some q) ∧
    (∀ kvs, message.get? "load" = none → message.get? "hvacgroup" = some (.obj kvs) →
      Json.get? (.obj kvs) "id" = none → route registry message = none) ∧
    (message.get? "load" = none → message.get? "hvacgroup" = none →
      route registry message = none) := by
  refine ⟨?_, ?_, ?_, ?_, ?_⟩
  · intro kvs q hl hid n
    have hw : get_wiser_entity_id message = some (.num q) := by
      simp only [get_wiser_entity_id, hl, hid]
    rw [route, hw]
    exact first_match_index_eq_some_iff registry q hnd n
  · intro kvs hl hid
    have hw : get_wiser_entity_id message = none := by
      simp only [get_wiser_entity_id, hl, hid]
    rw [route, hw]
  · intro kvs q hl hh hid n
    have hw : get_wiser_entity_id message = some (.num q) := by
      simp only [get_wiser_entity_id, hl, hh, hid]
    rw [route, hw]
    exact first_match_index_eq_some_iff registry q hnd n
  · intro kvs hl hh hid
    have hw : get_wiser_entity_id message = none := by
      simp only [get_wiser_entity_id, hl, hh, hid]
    rw [route, hw]
  · intro hl hh
    have hw : get_wiser_entity_id message = none := by
      simp only [get_wiser_entity_id, hl, hh]
    rw [route, hw]

/-- Witness for C3: with entities 5, 42, 7 registered in that order, the
envelope `load.id = 42` routes to index 1 (the entity with id 42). -/
theorem C3_event_router_witness : route c3registry c3message = some 1 := by
  have h := (C3_event_router c3registry c3message (by norm_num [c3registry])).1
    [("id", .num 42)] 42 rfl rfl 1
  exact h.mpr rfl

/-- C4 counterexample: the claim extends the no-op guarantee to envelopes
missing expected fields INSIDE `state`.  An hvacgroup envelope whose
`state` holds only `ambient_temperature` makes
`update_from_websocket_message` raise a `KeyError` on
`target_temperature` — after having already overwritten
`current_temperature` (18 → 20): a raise and a partial overwrite. -/
theorem C4_counterexample :
    (hvac_update_from_websocket_message c4InitState c4PartialMessage).2 =
      some (.keyError "target_temperature") ∧
    (hvac_update_from_websocket_message c4InitState c4PartialMessage).1.current_temperature =
      some (.num 20) ∧
    c4InitState.current_temperature = some (.num 18) ∧
    ¬ (some (Json.num 20) = some (Json.num 18)) := by
  refine ⟨rfl, rfl, rfl, by norm_num⟩

/-- C4 amended: for every device kind, an envelope missing the kind key
(`load` for lights and covers, `hvacgroup` for HVAC groups) or missing
the nested `state` key makes the push update log and no-op: nothing is
raised and the tracked state is unchanged.  (Missing fields inside
`state` are NOT guarded for covers and HVAC groups — see the
counterexample.) -/
theorem C4_missing_key_noop (sL : LightState) (sC : CoverState) (sH : HvacState)
    (message : Json) :
    (message.get? "load" = none →
      light_update_from_websocket_message sL message = (sL, none) ∧
      cover_update_from_websocket_message sC message = (sC, none)) ∧
    (∀ m, message.get? "load" = some m → m.get? "state" = none →
      light_update_from_websocket_message sL message = (sL, none) ∧
      cover_update_from_websocket_message sC message = (sC, none)) ∧
    (message.get? "hvacgroup" = none →
      hvac_update_from_websocket_message sH message = (sH, none)) ∧
    (∀ m, message.get? "hvacgroup" = some m → m.get? "state" = none →
      hvac_update_from_websocket_message sH message = (sH, none)) := by
  refine ⟨fun hl => ?_, fun m hl hst => ?_, fun hh => ?_, fun m hh hst => ?_⟩
  · constructor
    · simp only [light_update_from_websocket_message, hl]
    · simp only [cover_update_from_websocket_message, hl]
  · constructor
    · simp only [light_update_from_websocket_message, hl, hst]
    · simp only [cover_update_from_websocket_message, hl, hst]
  · simp only [hvac_update_from_websocket_message, hh]
  · simp only [hvac_update_from_websocket_message, hh, hst]

/-- Witness for C4 on concrete envelopes: one without any kind key, one
whose `load` object lacks `state`. -/
theorem C4_missing_key_noop_witness :
    light_update_from_websocket_message initLightState c4NoKindMessage =
      (initLightState, none) ∧
    cover_update_from_websocket_message initCoverState c4NoStateMessage =
      (initCoverState, none) ∧
    hvac_update_from_websocket_message initHvacState c4NoKindMessage =
      (initHvacState, none) := by
  refine ⟨?_, ?_, ?_⟩
  · exact ((C4_missing_key_noop initLightState initCoverState initHvacState
      c4NoKindMessage).1 rfl).1
  · exact ((C4_missing_key_noop initLightState initCoverState initHvacState
      c4NoStateMessage).2.1 (.obj [("id", .num 3)]) rfl rfl).2
  · exact (C4_missing_key_noop initLightState initCoverState initHvacState
      c4NoKindMessage).2.2.1 rfl

/-- Helper: the moving-flag chain never touches the position field. -/
theorem coverMovingFlags_position (s : CoverState) (mv : Json) :
    (coverMovingFlags s mv).position = s.position := by
  simp only [coverMovingFlags]
  split_ifs <;> rfl

/-- Helper: the threshold chain never touches the position field. -/
theorem coverPositionFlags_position (s : CoverState) (p : ℚ) :
    (coverPositionFlags s p).position = s.position := by
  simp only [coverPositionFlags]
  split_ifs <;> rfl

/-- Helper: the threshold chain never touches the direction flags. -/
theorem coverPositionFlags_opening (s : CoverState) (p : ℚ) :
    (coverPositionFlags s p).is_opening = s.is_opening ∧
    (coverPositionFlags s p).is_closing = s.is_closing := by
  simp only [coverPositionFlags]
  split_ifs <;> exact ⟨rfl, rfl⟩

/-- Helper: a well-formed cover push envelope reduces the update to the
position write followed by the two flag chains, raising nothing. -/
theorem cover_update_reduce (s : CoverState) (i lv : ℚ) (mv : String) :
    cover_update_from_websocket_message s (coverPushMessage i lv mv) =
      (coverPositionFlags
        (coverMovingFlags { s with position := some (100 - lv / 100) } (.str mv))
        (100 - lv / 100), none) := by
  simp [cover_update_from_websocket_message, coverPushMessage, Json.get?, lookupKey]

/-- C8: a valid cover push event stores position `100 - level / 100`,
maps `up`/`down`/`stop` to the is-opening/is-closing flags, and derives
the opened/closed/partial flags from the thresholds (`>= 100` fully
open, `<= 0` fully closed, otherwise partial), raising nothing. -/
theorem C8_cover_push_mapping (s : CoverState) (i lv : ℚ) (mv : String) :
    ((cover_update_from_websocket_message s (coverPushMessage i lv mv)).2 = none) ∧
    ((cover_update_from_websocket_message s (coverPushMessage i lv mv)).1.position =
      some (100 - lv / 100)) ∧
    (mv = "down" →
      (cover_update_from_websocket_message s (coverPushMessage i lv mv)).1.is_closing = true ∧
      (cover_update_from_websocket_message s (coverPushMessage i lv mv)).1.is_opening = false) ∧
    (mv = "up" →
      (cover_update_from_websocket_message s (coverPushMessage i lv mv)).1.is_closing = false ∧
      (cover_update_from_websocket_message s (coverPushMessage i lv mv)).1.is_opening = true) ∧
    (mv = "stop" →
      (cover_update_from_websocket_message s (coverPushMessage i lv mv)).1.is_closing = false ∧
      (cover_update_from_websocket_message s (coverPushMessage i lv mv)).1.is_opening = false) ∧
    (100 ≤ 100 - lv / 100 →
      (cover_update_from_websocket_message s (coverPushMessage i lv mv)).1.is_opened = true ∧
      (cover_update_from_websocket_message s (coverPushMessage i lv mv)).1.is_closed = false ∧
      (cover_update_from_websocket_message s (coverPushMessage i lv mv)).1.is_partially_opened = false) ∧
    (¬ 100 ≤ 100 - lv / 100 → 100 - lv / 100 ≤ 0 →
      (cover_update_from_websocket_message s (coverPushMessage i lv mv)).1.is_closed = true ∧
      (cover_update_from_websocket_message s (coverPushMessage i lv mv)).1.is_opened = false ∧
      (cover_update_from_websocket_message s (coverPushMessage i lv mv)).1.is_partially_opened = false) ∧
    (¬ 100 ≤ 100 - lv / 100 → ¬ 100 - lv / 100 ≤ 0 →
      (cover_update_from_websocket_message s (coverPushMessage i lv mv)).1.is_partially_opened = true ∧
      (cover_update_from_websocket_message s (coverPushMessage i lv mv)).1.is_opened = false ∧
      (cover_update_from_websocket_message s (coverPushMessage i lv mv)).1.is_closed = false) := by
  have key := cover_update_reduce s i lv mv
  refine ⟨by rw [key], ?_, ?_, ?_, ?_, ?_, ?_, ?_⟩
  · rw [key]
    simp only [coverPositionFlags_position, coverMovingFlags_position]
  · intro h; subst h
    rw [key]
    refine ⟨?_, ?_⟩
    · rw [(coverPositionFlags_opening _ _).2]
      simp [coverMovingFlags, jsonEqStr]
    · rw [(coverPositionFlags_opening _ _).1]
      simp [coverMovingFlags, jsonEqStr]
  · intro h; subst h
    rw [key]
    refine ⟨?_, ?_⟩
    · rw [(coverPositionFlags_opening _ _).2]
      simp [coverMovingFlags, jsonEqStr]
    · rw [(coverPositionFlags_opening _ _).1]
      simp [coverMovingFlags, jsonEqStr]
  · intro h; subst h
    rw [key]
    refine ⟨?_, ?_⟩
    · rw [(coverPositionFlags_opening _ _).2]
      simp [coverMovingFlags, jsonEqStr]
    · rw [(coverPositionFlags_opening _ _).1]
      simp [coverMovingFlags, jsonEqStr]
  · intro h
    rw [key]
    simp only [coverPositionFlags, if_pos h]
    exact ⟨trivial, trivial, trivial⟩
  · intro h1 h2
    rw [key]
    simp only [coverPositionFlags, if_neg h1, if_pos h2]
    exact ⟨trivial, trivial, trivial⟩
  · intro h1 h2
    rw [key]
    simp only [coverPositionFlags, if_neg h1, if_neg h2]
    exact ⟨trivial, trivial, trivial⟩

/-- Witness for C8, the end-to-end instance of the claim: the event
`load.id = 7, state.level = 2500, state.moving = "down"` yields
position 75, is_closing, not is_opening, is_partially_opened. -/
theorem C8_cover_push_witness :
    (cover_update_from_websocket_message initCoverState (coverPushMessage 7 2500 "down")).1.position = some 75 ∧
    (cover_update_from_websocket_message initCoverState (coverPushMessage 7 2500 "down")).1.is_closing = true ∧
    (cover_update_from_websocket_message initCoverState (coverPushMessage 7 2500 "down")).1.is_opening = false ∧
    (cover_update_from_websocket_message initCoverState (coverPushMessage 7 2500 "down")).1.is_partially_opened = true := by
  have h := C8_cover_push_mapping initCoverState 7 2500 "down"
  refine ⟨?_, (h.2.2.1 rfl).1, (h.2.2.1 rfl).2,
    (h.2.2.2.2.2.2.2 (by norm_num) (by norm_num)).1⟩
  rw [h.2.1]
  norm_num

/-- Helper: Python rounding moves a rational by at most one half. -/
theorem pyRound_abs_sub_le (q : ℚ) : |(pyRound q : ℚ) - q| ≤ 1 / 2 := by
  have h0 : (Int.floor q : ℚ) ≤ q := Int.floor_le q
  have h1 : q < (Int.floor q : ℚ) + 1 := Int.lt_floor_add_one q
  unfold pyRound
  split_ifs with ha hb hc <;> rw [abs_le] <;> constructor <;> push_cast <;> linarith

/-- C9: for a host brightness accepted by the turn-on command, the
vendor value sent is `round(b * 39.22)` capped at 10000, and a push
event reporting vendor brightness `round(b * 39.22)` stores
`round(b * 39.22) / 39.22`, which is within `1 / (2 * 39.22) = 25/1961`
of `b`. -/
theorem C9_brightness_roundtrip (b : ℚ) (h0 : 0 ≤ b) (h255 : b ≤ 255) :
    (∀ c g r s, (light_async_turn_on (some (some b)) c g r s).sentBri =
      some (convertedBrightness b)) ∧
    (convertedBrightness b =
      if 10000 < pyRound (b * briFactor) then 10000 else pyRound (b * briFactor)) ∧
    (∀ s, (light_update_from_websocket_message s
        (briPushMessage (pyRound (b * briFactor)))).1.brightness =
      some ((pyRound (b * briFactor) : ℚ) / briFactor)) ∧
    |((pyRound (b * briFactor) : ℚ) / briFactor) - b| ≤ 25 / 1961 := by
  refine ⟨?_, rfl, ?_, ?_⟩
  · intro c g r s
    cases r with
    | error e => rfl
    | ok d =>
        simp only [light_async_turn_on]
        split
        · rfl
        · split <;> rfl
  · intro s
    by_cases hr : ((pyRound (b * briFactor) : ℚ)) = 0
    · simp [light_update_from_websocket_message, briPushMessage, Json.get?, lookupKey,
        isFadingOne, hr]
    · simp [light_update_from_websocket_message, briPushMessage, Json.get?, lookupKey,
        isFadingOne, hr]
  · have h := pyRound_abs_sub_le (b * briFactor)
    have hf : (0:ℚ) < briFactor := by norm_num [briFactor]
    have heq : (pyRound (b * briFactor) : ℚ) / briFactor - b =
        ((pyRound (b * briFactor) : ℚ) - b * briFactor) / briFactor := by
      field_simp
      try ring
    rw [heq, abs_div, abs_of_pos hf]
    calc |(pyRound (b * briFactor) : ℚ) - b * briFactor| / briFactor
        ≤ (1 / 2) / briFactor := by gcongr
      _ = 25 / 1961 := by norm_num [briFactor]

/-- Witness for C9 at host brightness 100. -/
theorem C9_brightness_witness :
    (0:ℚ) ≤ 100 ∧ (100:ℚ) ≤ 255 ∧
    (light_update_from_websocket_message initLightState
        (briPushMessage (pyRound (100 * briFactor)))).1.brightness =
      some ((pyRound (100 * briFactor) : ℚ) / briFactor) ∧
    |((pyRound (100 * briFactor) : ℚ) / briFactor) - 100| ≤ 25 / 1961 := by
  have h := C9_brightness_roundtrip 100 (by norm_num) (by norm_num)
  exact ⟨by norm_num, by norm_num, h.2.2.1 initLightState, h.2.2.2⟩

/-- C10 counterexample: the claim says the pre-written local value is
"the requested value".  For `async_close_cover` (no position kwarg) the
requested host position is 0 — the command sends vendor level 10000,
whose host equivalent under the code's own inversion `100 - level / 100`
is 0 — yet the handler pre-writes position 100 (the shared
`kwargs.get(ATTR_POSITION, 100)` default), so after a failed request the
cover is locally marked fully open instead of closed. -/
theorem C10_counterexample :
    (cover_async_close_cover none (.error (.fellerApiException "request failed"))
      initCoverState).state.position = some 100 ∧
    (cover_async_close_cover none (.error (.fellerApiException "request failed"))
      initCoverState).err = some (.fellerApiException "request failed") ∧
    (cover_async_close_cover none (.error (.fellerApiException "request failed"))
      initCoverState).sentLevel = some 10000 ∧
    (100 : ℚ) - 10000 / 100 = 0 ∧
    ¬ (some (100 : ℚ) = some (0 : ℚ)) := by
  refine ⟨rfl, rfl, rfl, by norm_num, by norm_num⟩

/-- C10 amended: command handlers write a local value before awaiting the
request, so a failing request propagates its exception while the local
state keeps the pre-written value: the light's turn-on-with-brightness
and the cover's set-position write the requested value, and open writes
its requested 100 — but close also writes 100 (the shared kwargs
default), not the requested closed position. -/
theorem C10_optimistic_local_write (e : PyError) (b p : ℚ)
    (c g : Except PyError Json) (sL : LightState) (sC : CoverState) :
    ((light_async_turn_on (some (some b)) c g (.error e) sL).state.brightness = some b) ∧
    ((light_async_turn_on (some (some b)) c g (.error e) sL).err = some e) ∧
    ((cover_async_set_cover_position (some p) (.error e) sC).state.position = some p) ∧
    ((cover_async_set_cover_position (some p) (.error e) sC).err = some e) ∧
    ((cover_async_open_cover none (.error e) sC).state.position = some 100) ∧
    ((cover_async_open_cover none (.error e) sC).err = some e) ∧
    ((cover_async_close_cover none (.error e) sC).state.position = some 100) ∧
    ((cover_async_close_cover none (.error e) sC).err = some e) :=
  ⟨rfl, rfl, rfl, rfl, rfl, rfl, rfl, rfl⟩

end Feller
